import Mathlib

/-!
Verification development for the study-tool backend (Express, `backend/src`).

The repository ships two near-duplicate backend variants:
  * `backend/src/routes/api.js`  — the router module (suffix `R` below)
  * `backend/src/index.js`       — the monolithic bootstrap (suffix `I` below)
Both define heuristic generators (`textSummary`, `generateFlashcards`,
`generateQuiz`) and three POST handlers; `backend/src/services/ai.js` holds the
AI-path JSON coercion.

JavaScript strings are embedded as `List Char` (`Str`).  JS `Number` scores are
embedded as exact rationals `ℚ`; every arithmetic fact used below is far from
any float-rounding boundary (differences of at least 1/2), so the idealisation
is faithful for the stated properties.  `Math.random` based behaviour
(option shuffling, the index-variant backfill offset) is parametrised by an
explicit oracle argument; a JS `Array#sort` call always returns a permutation
of its input, which is the only fact the theorems use about the shuffle.
-/

abbrev Str := List Char

/-- Whitespace class used by the JS regexes `\s`.  We model the ASCII
whitespace characters that can occur in extracted text. -/
def isWs (c : Char) : Bool := c = ' ' || c = '\n' || c = '\t' || c = '\r'

/-- Sentence-terminal punctuation of the split regex `(?<=[.!?])\s+`. -/
def isTerm (c : Char) : Bool := c = '.' || c = '!' || c = '?'

def headIsWs : List Char → Bool
  | [] => false
  | d :: _ => isWs d

/-- JS `str.split(re)` where `re` matches a RUN of characters satisfying `p`
(e.g. `/\s+/`, `/\n+/`).  State `none` means we are inside a separator run
(the token before it has been emitted); `some acc` holds the reversed
current token.  Matches JS: a leading separator yields a leading `""`, a
trailing separator yields a trailing `""`. -/
def splitRunGo (p : Char → Bool) : List Char → Option Str → List Str
  | [], none => [[]]
  | [], some acc => [acc.reverse]
  | c :: rest, none =>
    if p c then splitRunGo p rest none else splitRunGo p rest (some [c])
  | c :: rest, some acc =>
    if p c then acc.reverse :: splitRunGo p rest none
    else splitRunGo p rest (some (c :: acc))

def jsSplitRun (p : Char → Bool) (s : Str) : List Str := splitRunGo p s (some [])

/-- JS `str.split(/(?<=[.!?])\s+/)`: cut after terminal punctuation that is
followed by whitespace; the whitespace run is consumed.  Same state idea as
`splitRunGo`. -/
def splitSentGo : List Char → Option Str → List Str
  | [], none => [[]]
  | [], some acc => [acc.reverse]
  | c :: rest, none =>
    if isWs c then splitSentGo rest none else splitSentGo rest (some [c])
  | c :: rest, some acc =>
    if isTerm c && headIsWs rest then (c :: acc).reverse :: splitSentGo rest none
    else splitSentGo rest (some (c :: acc))

def jsSplitSentences (s : Str) : List Str := splitSentGo s (some [])

/-- JS `str.split(c)` for a single character: cut at EVERY occurrence
(no run merging), e.g. `split(':')` or `split(/[\n.]/)`. -/
def splitEvery (p : Char → Bool) : List Char → Str → List Str
  | [], acc => [acc.reverse]
  | c :: rest, acc =>
    if p c then acc.reverse :: splitEvery p rest []
    else splitEvery p rest (c :: acc)

def jsSplitEvery (p : Char → Bool) (s : Str) : List Str := splitEvery p s []

/-- JS `str.replace(re, " ")` where `re` matches runs of `p`-characters
(`/\n+/g → " "`, `/\s+/g → " "`).  The Bool flag records being inside a run
whose replacement was already emitted. -/
def replaceRunGo (p : Char → Bool) (r : Char) : List Char → Bool → List Char
  | [], _ => []
  | c :: rest, inRun =>
    if p c then
      if inRun then replaceRunGo p r rest true
      else r :: replaceRunGo p r rest true
    else c :: replaceRunGo p r rest false

def jsReplaceRun (p : Char → Bool) (r : Char) (s : Str) : Str := replaceRunGo p r s false

/-- JS `String.prototype.trim`. -/
def jsTrim (s : Str) : Str := ((s.dropWhile isWs).reverse.dropWhile isWs).reverse

/-- JS `String.prototype.toLowerCase` (ASCII range; the keyword set is ASCII). -/
def jsLower (s : Str) : Str := s.map Char.toLower

/-- Number of positions of `s` at which `pat` occurs (so `s.includes(pat)` iff
this is nonzero for nonempty `pat`). -/
def countOcc (pat : Str) : Str → Nat
  | [] => 0
  | c :: rest => (if pat.isPrefixOf (c :: rest) then 1 else 0) + countOcc pat rest

/-- JS `arr.includes`-style substring test `s.includes(pat)`. -/
def jsIncludes (pat s : Str) : Bool := decide (0 < countOcc pat s)

/-- JS `arr.join(" ")`. -/
def joinSp : List Str → Str
  | [] => []
  | [s] => s
  | s :: rest => s ++ ' ' :: joinSp rest

/-- JS `arr.join(":")` (used by the index-variant flashcards). -/
def joinColon : List Str → Str
  | [] => []
  | [s] => s
  | s :: rest => s ++ ':' :: joinColon rest

/-- JS `str.split(sep)` for a multi-character separator (used for
`line.split(" is ")`).  Fuel-indexed to keep the recursion structural; the
fuel is set to the string length, which every step strictly consumes, so the
fuel-exhausted branch is unreachable. -/
def splitSubF (sep : Str) : Nat → List Char → Str → List Str
  | _, [], acc => [acc.reverse]
  | 0, s, acc => [acc.reverse ++ s]
  | n + 1, c :: rest, acc =>
    if sep.isPrefixOf (c :: rest) then
      acc.reverse :: splitSubF sep n (List.drop (sep.length - 1) rest) []
    else splitSubF sep n rest (c :: acc)

def jsSplitSub (sep s : Str) : List Str := splitSubF sep s.length s []

/-! ## Heuristic summarizer

`routes/api.js` lines 18-35 (`textSummaryR`) and `index.js` lines 29-40
(`textSummaryI`).  The JS `scored.sort((a, b) => b.score - a.score)` is a
stable descending sort by score (Array#sort is stable); it is modelled by an
insertion sort in which an element moves past only strictly greater scores,
so equal scores keep their original relative order. -/

/-- The hand-picked keyword set of `routes/api.js` line 26. -/
def keywords : List Str :=
  ["important".toList, "key".toList, "main".toList,
   "summary".toList, "therefore".toList, "because".toList]

/-- Keyword bonus `keywords.reduce((acc, kw) => (s.toLowerCase().includes(kw) ? acc + 0.5 : acc), 0)`. -/
def kwFold (s : Str) : ℚ :=
  keywords.foldl (fun acc kw => if jsIncludes kw (jsLower s) then acc + 1/2 else acc) 0

/-- JS `Math.min` on scores, written as an explicit conditional so that it
evaluates by kernel reduction. -/
def qmin (a b : ℚ) : ℚ := if a ≤ b then a else b

/-- Per-sentence score of `routes/api.js` lines 28-31. -/
def jsScoreR (s : Str) (idx total : Nat) : ℚ :=
  qmin ((s.length : ℚ) / 200) 1 + kwFold s + (1 - (idx : ℚ) / (total : ℚ))

/-- Per-sentence score of `index.js` line 36 (no cap, no keyword component). -/
def jsScoreI (s : Str) (idx total : Nat) : ℚ :=
  (s.length : ℚ) / 200 + (1 - (idx : ℚ) / (total : ℚ))

/-- Stable descending insertion, matching the stable JS sort with comparator
`(a, b) => b.score - a.score`.  `sortDesc` folds from the right, so the
element being inserted precedes (in the source order) everything already in
the accumulator: it moves past exactly the elements of strictly greater
score and lands before the first element whose score is ≤ its own, keeping
equal-scored elements in source order. -/
def insertDesc (x : Str × ℚ) : List (Str × ℚ) → List (Str × ℚ)
  | [] => [x]
  | y :: ys => if x.2 < y.2 then y :: insertDesc x ys else x :: y :: ys

def sortDesc (l : List (Str × ℚ)) : List (Str × ℚ) := l.foldr insertDesc []

/-- Sentence list of `routes/api.js` lines 20-23:
`text.replace(/\n+/g, " ").split(/(?<=[.!?])\s+/).filter(Boolean)`. -/
def sentencesR (text : Str) : List Str :=
  (jsSplitSentences (jsReplaceRun (· = '\n') ' ' text)).filter (· ≠ [])

/-- Sentence list of `index.js` line 31:
`text.replace(/\s+/g, " ").split(/(?<=[.!?])\s+/).filter(s => s.length > 20)`. -/
def sentencesI (text : Str) : List Str :=
  (jsSplitSentences (jsReplaceRun isWs ' ' text)).filter (fun s => 20 < s.length)

/-- The scored list of `routes/api.js` lines 27-32. -/
def scoredR (text : Str) : List (Str × ℚ) :=
  let sents := sentencesR text
  sents.enum.map (fun p => (p.2, jsScoreR p.2 p.1 sents.length))

/-- The scored list of `index.js` lines 34-37. -/
def scoredI (text : Str) : List (Str × ℚ) :=
  let sents := sentencesI text
  sents.enum.map (fun p => (p.2, jsScoreI p.2 p.1 sents.length))

/-- Sentences selected by `textSummary` in `routes/api.js`: all of them when
there are at most `maxS`, else the top `maxS` by descending score. -/
def pickedR (text : Str) (maxS : Nat) : List Str :=
  let sents := sentencesR text
  if sents.length ≤ maxS then sents
  else ((sortDesc (scoredR text)).take maxS).map Prod.fst

def pickedI (text : Str) (maxS : Nat) : List Str :=
  let sents := sentencesI text
  if sents.length ≤ maxS then sents
  else ((sortDesc (scoredI text)).take maxS).map Prod.fst

/-- Function `textSummary` of `routes/api.js` lines 18-35 (both return sites join the
selected sentences with single spaces). -/
def textSummaryR (text : Str) (maxS : Nat) : Str :=
  if text = [] then [] else joinSp (pickedR text maxS)

/-- Function `textSummary` of `index.js` lines 29-40. -/
def textSummaryI (text : Str) (maxS : Nat) : Str :=
  if text = [] then [] else joinSp (pickedI text maxS)

/-! ## Heuristic flashcard generator

`routes/api.js` lines 37-55 (`generateFlashcardsR`) and `index.js`
lines 42-60 (`generateFlashcardsI`). -/

structure Flashcard where
  question : Str
  answer : Str
deriving DecidableEq, Repr

def ellip : Str := "…".toList

/-- Non-empty trimmed lines: `text.split(/\n+/).map(l => l.trim()).filter(Boolean)`. -/
def linesR (text : Str) : List Str :=
  ((jsSplitRun (· = '\n') text).map jsTrim).filter (· ≠ [])

/-- One structured card of `routes/api.js` lines 44-46. -/
def mkCardR (l : Str) : Flashcard :=
  { question := "What is meant by: \"".toList
      ++ (l.takeWhile (· ≠ ':')).take 80 ++ "\"?".toList,
    answer := if 120 < l.length then l.take 200 ++ ellip else l }

/-- The structured-card loop of `routes/api.js` lines 41-47, with the
remaining budget `count - cards.length` made explicit. -/
def structLoopR : Nat → List Str → List Flashcard
  | 0, _ => []
  | _ + 1, [] => []
  | n + 1, l :: rest =>
    if l.length < 20 then structLoopR (n + 1) rest
    else mkCardR l :: structLoopR n rest

/-- Structured cards come from the first 200 non-empty trimmed lines only
(`const chunks = lines.slice(0, 200)`, line 39). -/
def structuredCardsR (text : Str) (count : Nat) : List Flashcard :=
  structLoopR count ((linesR text).take 200)

/-- The backfill loop of `routes/api.js` lines 49-53: while fewer than
`count` cards and the text is non-empty, window the text at offset
`floor(cards.length / count * text.length)`.  (JS computes the offset in
float arithmetic; the exact `k * len / count` agrees except on rounding
boundaries that no theorem below depends on — every backfill answer ends in
the appended ellipsis either way.) -/
def backfillCardsR (text : Str) (count startLen : Nat) : List Flashcard :=
  (List.range (count - startLen)).map (fun j =>
    let start := (startLen + j) * text.length / count
    { question := "Explain the following concept:".toList,
      answer := (text.drop start).take 180 ++ ellip })

/-- Function `generateFlashcards` of `routes/api.js` lines 37-55. -/
def generateFlashcardsR (text : Str) (count : Nat) : List Flashcard :=
  let s := structuredCardsR text count
  (s ++ (if text = [] then [] else backfillCardsR text count s.length)).take count

/-- Segments of `index.js` line 43:
`text.split(/[\n.]/).map(l => l.trim()).filter(Boolean)`. -/
def linesI (text : Str) : List Str :=
  ((jsSplitEvery (fun c => c = '\n' || c = '.') text).map jsTrim).filter (· ≠ [])

/-- One structured card attempt of `index.js` lines 47-53: a colon line maps
the pre-colon part to the question and the (possibly empty) remainder to the
answer; otherwise an " is " line maps subject/definition; otherwise nothing. -/
def mkCardI (l : Str) : Option Flashcard :=
  let parts := jsSplitEvery (· = ':') l
  if parts.length > 1 then
    some { question := ("What is \"".toList) ++ jsTrim (parts.headD []) ++ ("\"?".toList),
           answer := jsTrim (joinColon parts.tail) }
  else if jsIncludes (" is ".toList) l then
    let isParts := jsSplitSub (" is ".toList) l
    let subject := isParts.headD []
    let def0 := isParts.tail.headD []
    if subject ≠ [] && def0 ≠ [] then
      some { question := "What is ".toList ++ jsTrim subject ++ "?".toList,
             answer := jsTrim def0 }
    else none
  else none

/-- The structured-card loop of `index.js` lines 45-54. -/
def structLoopI : Nat → List Str → List Flashcard
  | 0, _ => []
  | _ + 1, [] => []
  | n + 1, l :: rest =>
    if l.length < 30 then structLoopI (n + 1) rest
    else
      match mkCardI l with
      | some c => c :: structLoopI n rest
      | none => structLoopI (n + 1) rest

/-- The random backfill of `index.js` lines 55-58, with the draws of
`Math.floor(Math.random() * (text.length - 120))` supplied by the oracle
`randIdx`. -/
def backfillCardsI (randIdx : Nat → Nat) (text : Str) (count startLen : Nat) :
    List Flashcard :=
  (List.range (count - startLen)).map (fun j =>
    { question := "Explain this snippet:".toList,
      answer := (text.drop (randIdx j)).take 120 ++ ellip })

/-- Function `generateFlashcards` of `index.js` lines 42-60. -/
def generateFlashcardsI (randIdx : Nat → Nat) (text : Str) (count : Nat) :
    List Flashcard :=
  let s := structLoopI count (linesI text)
  (s ++ (if text = [] then [] else backfillCardsI randIdx text count s.length)).take count

/-! ## Heuristic quiz generator (`routes/api.js` lines 57-79)

The `index.js` quiz variant (lines 62-75) picks its mask index with
`Math.random` and builds `['concept','process','model',answer]` without
deduplication; only facts independent of its random draws are needed below,
so just the routes variant is embedded in full, with the shuffle of the
option list abstracted as an arbitrary permutation-producing function. -/

structure QuizItem where
  question : Str
  options : List Str
  answer : Str
deriving DecidableEq, Repr

/-- Characters kept by `word.replace(/[^a-z0-9-]/gi, "")`. -/
def keepAns (c : Char) : Bool := c.isAlpha || c.isDigit || c = '-'

/-- Mask index `Math.max(3, Math.min(words.length - 2, Math.floor(words.length / 2)))`
of `routes/api.js` line 64. -/
def maskIdx (len : Nat) : Nat := max 3 (min (len - 2) (len / 2))

def blank : Str := "____".toList

/-- JS `arr.filter((v, i, arr) => arr.indexOf(v) === i)`: keep the first
occurrence of each value, in order.  `seen` accumulates the values already
emitted. -/
def dedupFirstGo (seen : List Str) : List Str → List Str
  | [] => []
  | x :: xs =>
    if x ∈ seen then dedupFirstGo seen xs
    else x :: dedupFirstGo (x :: seen) xs

def dedupFirst (l : List Str) : List Str := dedupFirstGo [] l

/-- The deduplicated, truncated option pool of `routes/api.js` lines 69-71. -/
def optionPool (answer : Str) : List Str :=
  (dedupFirst [answer, "concept".toList, "process".toList,
    "theory".toList, "model".toList]).take 4

/-- Token list `s.split(/\s+/)` of `routes/api.js` line 62. -/
def wordsOf (s : Str) : List Str := jsSplitRun isWs s

/-- Extracted answer `words[idx].replace(/[^a-z0-9-]/gi, "")` of line 65. -/
def ansOf (s : Str) : Str :=
  ((wordsOf s).getD (maskIdx (wordsOf s).length) []).filter keepAns

/-- One produced quiz item (`routes/api.js` lines 67-72): the prompt is the
token list with the masked token replaced by the blank, re-joined with
single spaces; the options are the shuffled deduplicated pool. -/
def mkQuizItem (shuffle : List Str → List Str) (s : Str) : QuizItem :=
  { question := joinSp ((wordsOf s).set (maskIdx (wordsOf s).length) blank),
    options := shuffle (optionPool (ansOf s)),
    answer := ansOf s }

/-- The question loop of `routes/api.js` lines 60-73 with the remaining
budget `count - qs.length` made explicit and the `shuffle` of line 77-79
(a random permutation) passed as a function argument. -/
def quizLoop (shuffle : List Str → List Str) : Nat → List Str → List QuizItem
  | 0, _ => []
  | _ + 1, [] => []
  | n + 1, s :: rest =>
    if (wordsOf s).length < 6 then quizLoop shuffle (n + 1) rest
    else if ansOf s = [] then quizLoop shuffle (n + 1) rest
    else mkQuizItem shuffle s :: quizLoop shuffle n rest

/-- Function `generateQuiz` of `routes/api.js` lines 57-75:
`text.split(/(?<=[.!?])\s+/).filter(s => s.length > 40)` then the loop. -/
def generateQuizR (shuffle : List Str → List Str) (text : Str) (count : Nat) :
    List QuizItem :=
  quizLoop shuffle count ((jsSplitSentences text).filter (fun s => 40 < s.length))

/-! ## Route handlers

Count clamping (`routes/api.js` lines 141/144, 158/161, 175/178 versus
`index.js` lines 131/134, 150/153, 169/172) and the missing-`text`
precondition guard of all six POST handlers.  The request-body count field
is modelled as `Option Int`: `none` when absent (the JS destructuring
default applies), `some v` for a numeric value `v`. -/

/-- Clamp `Math.min(10, Number(sentences) || 5)` of the `routes/api.js` summarize handler.
`Number(sentences) || 5` yields the default when the value is 0 (falsy). -/
def routesSummarizeCount (r : Option Int) : Int :=
  min 10 (match r with | none => 5 | some 0 => 5 | some v => v)

/-- Clamp `Math.min(20, Number(count) || 8)` of the `routes/api.js` flashcards handler. -/
def routesFlashcardsCount (r : Option Int) : Int :=
  min 20 (match r with | none => 8 | some 0 => 8 | some v => v)

/-- Clamp `Math.min(10, Number(count) || 5)` of the `routes/api.js` quiz handler. -/
def routesQuizCount (r : Option Int) : Int :=
  min 10 (match r with | none => 5 | some 0 => 5 | some v => v)

/-- The `index.js` summarize handler passes `sentences` (default 5) straight through. -/
def idxSummarizeCount (r : Option Int) : Int := r.getD 5

/-- The `index.js` flashcards handler passes `count` (default 8) straight through. -/
def idxFlashcardsCount (r : Option Int) : Int := r.getD 8

/-- The `index.js` quiz handler passes `count` (default 5) straight through. -/
def idxQuizCount (r : Option Int) : Int := r.getD 5

/-- Observable outcome of one POST handler: HTTP status plus whether the
heuristic generator respectively the AI delegate was invoked. -/
structure RouteResult where
  status : Nat
  calledHeuristic : Bool
  calledAI : Bool
deriving DecidableEq, Repr

/-- Missing-`text` guard shared by all six handlers (`if (!text) return
res.status(400)...`): `none` models an absent field, `some []` the empty
string (both falsy).  `hasKey` models the credential predicate, `aiOk`
whether the awaited remote call succeeds (its failure is the 500 catch
branch); the heuristic path never throws. -/
def postHandler (text : Option Str) (hasKey aiOk : Bool) : RouteResult :=
  match text with
  | none => { status := 400, calledHeuristic := false, calledAI := false }
  | some t =>
    if t = [] then { status := 400, calledHeuristic := false, calledAI := false }
    else if hasKey then
      if aiOk then { status := 200, calledHeuristic := false, calledAI := true }
      else { status := 500, calledHeuristic := false, calledAI := true }
    else { status := 200, calledHeuristic := true, calledAI := false }

/-- Summarize handler, `routes/api.js` lines 135-150. -/
def summarizeHandlerR (text : Option Str) (hasKey aiOk : Bool) : RouteResult :=
  postHandler text hasKey aiOk

/-- Flashcards handler, `routes/api.js` lines 152-167. -/
def flashcardsHandlerR (text : Option Str) (hasKey aiOk : Bool) : RouteResult :=
  postHandler text hasKey aiOk

/-- Quiz handler, `routes/api.js` lines 169-184. -/
def quizHandlerR (text : Option Str) (hasKey aiOk : Bool) : RouteResult :=
  postHandler text hasKey aiOk

/-- Summarize handler, `index.js` lines 125-141 (`hasKey` is `OPENAI_API_KEY || OPENROUTER_API_KEY`). -/
def summarizeHandlerI (text : Option Str) (hasKey aiOk : Bool) : RouteResult :=
  postHandler text hasKey aiOk

/-- Flashcards handler, `index.js` lines 144-160. -/
def flashcardsHandlerI (text : Option Str) (hasKey aiOk : Bool) : RouteResult :=
  postHandler text hasKey aiOk

/-- Quiz handler, `index.js` lines 163-179. -/
def quizHandlerI (text : Option Str) (hasKey aiOk : Bool) : RouteResult :=
  postHandler text hasKey aiOk

/-! ## AI-path JSON coercion (`services/ai.js` lines 89-93 and 108-112)

Only `JSON.parse(raw)` sits inside the `try`; the subsequent
`if (!Array.isArray(parsed.cards)) parsed.cards = []` runs outside it, in a
strict-mode ES module.  So a parse exception is recovered to `{cards: []}`,
but a body that parses to `null` throws a TypeError on the property READ,
and a body that parses to a non-object primitive (boolean, number, string)
throws a TypeError on the property ASSIGNMENT; both propagate to the route
handler (its 500 catch).  Arrays are objects, so they accept the assignment
and come back with an empty `cards`/`quiz`. -/

/-- Structured JSON values as produced by `JSON.parse`. -/
inductive Json where
  | null : Json
  | bool : Bool → Json
  | num : ℚ → Json
  | str : Str → Json
  | arr : List Json → Json
  | obj : List (Str × Json) → Json

def cardsKey : Str := "cards".toList

def quizKey : Str := "quiz".toList

/-- JS property access on a parsed OBJECT (the only value class on which the
source reads a field without throwing and can carry one). -/
def getField (j : Json) (k : Str) : Option Json :=
  match j with
  | Json.obj fields => (fields.find? (fun f => f.1 == k)).map (fun f => f.2)
  | _ => none

/-- Result of `aiFlashcards` lines 89-93 after the completion body raw text
is parsed: the argument is the outcome of `JSON.parse` (`none` =
exception), the result is `Except.error ()` when the post-`try` code throws
a TypeError and `Except.ok cards` otherwise. -/
def coerceFlashcards (pr : Option Json) : Except Unit (List Json) :=
  match pr with
  | none => Except.ok []
  | some Json.null => Except.error ()
  | some (Json.bool _) => Except.error ()
  | some (Json.num _) => Except.error ()
  | some (Json.str _) => Except.error ()
  | some (Json.arr _) => Except.ok []
  | some (Json.obj fields) =>
    match getField (Json.obj fields) cardsKey with
    | some (Json.arr l) => Except.ok l
    | _ => Except.ok []

/-- Result of `aiQuiz` lines 108-112, mirroring `coerceFlashcards` with the
`quiz` field. -/
def coerceQuiz (pr : Option Json) : Except Unit (List Json) :=
  match pr with
  | none => Except.ok []
  | some Json.null => Except.error ()
  | some (Json.bool _) => Except.error ()
  | some (Json.num _) => Except.error ()
  | some (Json.str _) => Except.error ()
  | some (Json.arr _) => Except.ok []
  | some (Json.obj fields) =>
    match getField (Json.obj fields) quizKey with
    | some (Json.arr l) => Except.ok l
    | _ => Except.ok []

/-! ## Concrete inputs used by witnesses and counterexamples -/

/-- Occurrence count of the string `a` among a list of strings. -/
def countEq (a : Str) (l : List Str) : Nat := l.countP (fun s => decide (s = a))

/-- A clean eligible sentence: 50 characters, 8 whitespace-separated tokens. -/
def quizWitnessText : Str :=
  ("Alpha bravo charlie delta echo foxtrot golf hotel.".toList)

/-- The single item the quiz generator produces on `quizWitnessText`
(identity shuffle — one possible outcome of the random sort). -/
def quizWitnessItem : QuizItem :=
  (generateQuizR (fun l => l) quizWitnessText 3).headD ⟨[], [], []⟩

/-- Like `quizWitnessText` but the second token itself contains the blank
placeholder substring. -/
def quizCexText : Str :=
  ("Alpha ____x charlie delta echo foxtrot golf hotel.".toList)

/-- A 44-character line ending in a colon: the index-variant flashcard made
from it has answer `"".trim()`. -/
def flashCexText : Str :=
  ("Mitochondria are the powerhouse of the cell:".toList)

/-- Two short sentences, none longer than 20 characters. -/
def txtC4 : Str := ("Hi. Yo.".toList)

/-- Two sentences, the first below 21 characters, the second above. -/
def txtC4w : Str :=
  ("One two three. Four five six seven eight nine ten eleven.".toList)

/-- First sentence holds the keyword "important" twice, "keys" and "because"
once each; second sentence holds no keyword. -/
def txtC3 : Str :=
  ("It is important and important because keys matter here. The weather was fine and cold today honestly.".toList)

def s1C3 : Str := ("It is important and important because keys matter here.".toList)

def s2C3 : Str := ("The weather was fine and cold today honestly.".toList)

/-- Scoring as the claim reads it, built for comparison with `scoredR`: the
keyword component pays 0.5 per OCCURRENCE of any keyword (total substring
occurrence count), instead of the code's 0.5 per keyword present. -/
def perOccScoredR (text : Str) : List (Str × ℚ) :=
  let sents := sentencesR text
  sents.enum.map (fun p =>
    (p.2, qmin ((p.2.length : ℚ) / 200) 1
      + (1/2) * (((keywords.map (fun kw => countOcc kw (jsLower p.2))).sum : ℚ))
      + (1 - (p.1 : ℚ) / (sents.length : ℚ))))

/-- A seven-token word list for the mask-index witness. -/
def wordsC9 : List Str :=
  ["alpha".toList, "bravo".toList, "charlie".toList, "delta".toList,
   "echo".toList, "foxtrot".toList, "golf".toList]

/-- Two texts whose non-empty trimmed lines agree (whitespace layout differs). -/
def t10a : Str := ("Gradient descent minimizes loss\nshort".toList)

def t10b : Str := ("Gradient descent minimizes loss\n\nshort\n".toList)

/-! ## Helper lemmas -/

lemma dedupFirstGo_mem : ∀ (l seen : List Str), ∀ x ∈ dedupFirstGo seen l, x ∈ l := by
  intro l
  induction l with
  | nil => intro seen x hx; simp [dedupFirstGo] at hx
  | cons y ys ih =>
    intro seen x hx
    by_cases h : y ∈ seen
    · simp only [dedupFirstGo, if_pos h] at hx
      exact List.mem_cons_of_mem _ (ih _ _ hx)
    · simp only [dedupFirstGo, if_neg h, List.mem_cons] at hx
      rcases hx with rfl | hx
      · exact List.mem_cons_self _ _
      · exact List.mem_cons_of_mem _ (ih _ _ hx)

lemma dedupFirstGo_not_mem :
    ∀ (l seen : List Str) (x : Str), x ∈ seen → x ∉ dedupFirstGo seen l := by
  intro l
  induction l with
  | nil => intro seen x _; simp [dedupFirstGo]
  | cons y ys ih =>
    intro seen x hxseen
    by_cases h : y ∈ seen
    · simp only [dedupFirstGo, if_pos h]
      exact ih seen x hxseen
    · simp only [dedupFirstGo, if_neg h, List.mem_cons, not_or]
      refine ⟨fun hxy => h (hxy ▸ hxseen), ?_⟩
      exact ih (y :: seen) x (List.mem_cons_of_mem _ hxseen)

lemma optionPool_props (a : Str) :
    countEq a (optionPool a) = 1 ∧ (optionPool a).length = 4 := by
  by_cases h1 : a = ("concept".toList)
  · subst h1; constructor <;> decide
  by_cases h2 : a = ("process".toList)
  · subst h2; constructor <;> decide
  by_cases h3 : a = ("theory".toList)
  · subst h3; constructor <;> decide
  by_cases h4 : a = ("model".toList)
  · subst h4; constructor <;> decide
  · -- generic answer distinct from every distractor
    have e1 : ¬ (("concept".toList : Str) = a) := fun he => h1 he.symm
    have e2 : ¬ (("process".toList : Str) = a) := fun he => h2 he.symm
    have e3 : ¬ (("theory".toList : Str) = a) := fun he => h3 he.symm
    have e4 : ¬ (("model".toList : Str) = a) := fun he => h4 he.symm
    simp only [String.toList] at e1 e2 e3 e4 ⊢
    have hpool : optionPool a
        = [a, "concept".toList, "process".toList, "theory".toList] := by
      simp [optionPool, dedupFirst, dedupFirstGo, e1, e2, e3, e4]
    rw [hpool]
    refine ⟨?_, rfl⟩
    simp [countEq, List.countP_cons, e1, e2, e3]

lemma maskIdx_bounds {len : Nat} (h : 6 ≤ len) :
    3 ≤ maskIdx len ∧ maskIdx len ≤ len - 2 := by
  unfold maskIdx
  refine ⟨le_max_left _ _, max_le (by omega) (min_le_left _ _)⟩

lemma infix_joinSp : ∀ (l : List Str) (x : Str), x ∈ l → x <:+: joinSp l := by
  intro l
  induction l with
  | nil => intro x hx; cases hx
  | cons y ys ih =>
    intro x hx
    rcases List.mem_cons.mp hx with rfl | hx
    · cases ys with
      | nil => exact List.infix_refl x
      | cons z zs =>
        show x <:+: x ++ ' ' :: joinSp (z :: zs)
        exact (List.prefix_append x _).isInfix
    · cases ys with
      | nil => cases hx
      | cons z zs =>
        have h2 := ih x hx
        have s1 : joinSp (z :: zs) <:+ ' ' :: joinSp (z :: zs) :=
          List.suffix_cons _ _
        have s2 : (' ' :: joinSp (z :: zs)) <:+ y ++ (' ' :: joinSp (z :: zs)) :=
          List.suffix_append _ _
        show x <:+: y ++ ' ' :: joinSp (z :: zs)
        exact h2.trans (s1.trans s2).isInfix

lemma foldl_half (p : Str → Bool) :
    ∀ (ks : List Str) (acc : ℚ),
      ks.foldl (fun a kw => if p kw then a + 1/2 else a) acc
        = acc + (1/2) * ((ks.filter p).length : ℚ) := by
  intro ks
  induction ks with
  | nil => intro acc; simp
  | cons k ks ih =>
    intro acc
    by_cases h : p k
    · simp only [List.foldl_cons, List.filter_cons, h, if_pos, ih, List.length_cons]
      push_cast
      ring
    · simp only [List.foldl_cons, List.filter_cons, h, ih]
      simp [h]

lemma kwFold_eq (s : Str) :
    kwFold s
      = (1/2) * ((keywords.filter (fun kw => jsIncludes kw (jsLower s))).length : ℚ) := by
  unfold kwFold
  rw [foldl_half]
  ring

lemma insertDesc_length (x : Str × ℚ) :
    ∀ l, (insertDesc x l).length = l.length + 1 := by
  intro l
  induction l with
  | nil => rfl
  | cons y ys ih => by_cases h : x.2 < y.2 <;> simp [insertDesc, h, ih]

lemma sortDesc_length : ∀ l, (sortDesc l).length = l.length := by
  intro l
  induction l with
  | nil => rfl
  | cons x xs ih =>
    show (insertDesc x (sortDesc xs)).length = xs.length + 1
    rw [insertDesc_length, ih]

lemma scoredR_length (text : Str) : (scoredR text).length = (sentencesR text).length := by
  simp [scoredR]

lemma scoredI_length (text : Str) : (scoredI text).length = (sentencesI text).length := by
  simp [scoredI]

lemma quizLoop_shape (shuffle : List Str → List Str) :
    ∀ (sents : List Str) (n : Nat) (q : QuizItem), q ∈ quizLoop shuffle n sents →
      ∃ s : Str, 6 ≤ (wordsOf s).length ∧ ansOf s ≠ [] ∧ q = mkQuizItem shuffle s := by
  intro sents
  induction sents with
  | nil =>
    intro n q hq
    cases n <;> simp [quizLoop] at hq
  | cons s rest ih =>
    intro n q hq
    cases n with
    | zero => simp [quizLoop] at hq
    | succ m =>
      by_cases hw : (wordsOf s).length < 6
      · rw [show quizLoop shuffle (m + 1) (s :: rest)
            = quizLoop shuffle (m + 1) rest by simp [quizLoop, hw]] at hq
        exact ih _ _ hq
      · by_cases ha : ansOf s = []
        · rw [show quizLoop shuffle (m + 1) (s :: rest)
              = quizLoop shuffle (m + 1) rest by simp [quizLoop, hw, ha]] at hq
          exact ih _ _ hq
        · rw [show quizLoop shuffle (m + 1) (s :: rest)
              = mkQuizItem shuffle s :: quizLoop shuffle m rest by
                simp [quizLoop, hw, ha]] at hq
          rcases List.mem_cons.mp hq with rfl | hq
          · exact ⟨s, by omega, ha, rfl⟩
          · exact ih _ _ hq

lemma structLoopR_answer :
    ∀ (ls : List Str) (budget : Nat) (c : Flashcard),
      c ∈ structLoopR budget ls → c.answer ≠ [] := by
  intro ls
  induction ls with
  | nil => intro budget c hc; cases budget <;> simp [structLoopR] at hc
  | cons l rest ih =>
    intro budget c hc
    cases budget with
    | zero => simp [structLoopR] at hc
    | succ m =>
      by_cases hl : l.length < 20
      · rw [show structLoopR (m + 1) (l :: rest) = structLoopR (m + 1) rest by
          simp [structLoopR, hl]] at hc
        exact ih _ _ hc
      · rw [show structLoopR (m + 1) (l :: rest)
            = mkCardR l :: structLoopR m rest by simp [structLoopR, hl]] at hc
        rcases List.mem_cons.mp hc with rfl | hc
        · have hlen : 20 ≤ l.length := by omega
          by_cases h120 : 120 < l.length
          · simp [mkCardR, h120, ellip]
          · simp [mkCardR, h120]
            intro hnil
            rw [hnil] at hlen
            simp at hlen
        · exact ih _ _ hc

/-! ## Claim theorems -/

/-- C2 (counterexample): the `index.js` handlers do NOT clamp: a request
with `count`/`sentences` = 1000 passes 1000 to the generator, above every
claimed bound (10 for summarize and quiz, 20 for flashcards). -/
theorem idx_count_passthrough_unbounded :
    idxSummarizeCount (some 1000) = 1000 ∧
    ¬ idxSummarizeCount (some 1000) ≤ 10 ∧
    idxFlashcardsCount (some 1000) = 1000 ∧
    ¬ idxFlashcardsCount (some 1000) ≤ 20 ∧
    idxQuizCount (some 1000) = 1000 ∧
    ¬ idxQuizCount (some 1000) ≤ 10 := by
  decide

/-- C2 (amended): the `routes/api.js` handlers clamp the requested count to
10 (summarize), 20 (flashcards) and 10 (quiz) before calling any generator;
the `index.js` handlers pass the requested value through unchanged. -/
theorem count_clamped_routes_only (r : Option Int) (v : Int) :
    routesSummarizeCount r ≤ 10 ∧ routesFlashcardsCount r ≤ 20 ∧
    routesQuizCount r ≤ 10 ∧ idxSummarizeCount (some v) = v ∧
    idxFlashcardsCount (some v) = v ∧ idxQuizCount (some v) = v :=
  ⟨min_le_left _ _, min_le_left _ _, min_le_left _ _, rfl, rfl, rfl⟩

/-- C6: on empty input text both heuristic summarizers return the empty
string rather than erroring (`if (!text) return ""`; the filtered sentence
list is empty anyway). -/
theorem summarizer_empty_input (n : Nat) :
    textSummaryR [] n = [] ∧ textSummaryI [] n = [] := by
  constructor <;> rfl

/-- C7: a missing or empty `text` field makes every one of the six POST
handlers (summarize / flashcards / quiz, in both backend variants) answer
status 400 with neither the heuristic generator nor the AI delegate
invoked, for any credential configuration and any remote outcome.  (A
downstream failure instead surfaces as status 500 in `postHandler`.) -/
theorem handlers_reject_missing_text (text : Option Str)
    (h : text = none ∨ text = some []) (hasKey aiOk : Bool) :
    summarizeHandlerR text hasKey aiOk = ⟨400, false, false⟩ ∧
    flashcardsHandlerR text hasKey aiOk = ⟨400, false, false⟩ ∧
    quizHandlerR text hasKey aiOk = ⟨400, false, false⟩ ∧
    summarizeHandlerI text hasKey aiOk = ⟨400, false, false⟩ ∧
    flashcardsHandlerI text hasKey aiOk = ⟨400, false, false⟩ ∧
    quizHandlerI text hasKey aiOk = ⟨400, false, false⟩ := by
  rcases h with rfl | rfl <;> exact ⟨rfl, rfl, rfl, rfl, rfl, rfl⟩

/-- C7 (witness): instantiated at an absent `text` field with a configured
credential and a healthy remote. -/
theorem handlers_reject_missing_text_witness :
    summarizeHandlerR none true true = ⟨400, false, false⟩ ∧
    flashcardsHandlerR none true true = ⟨400, false, false⟩ ∧
    quizHandlerR none true true = ⟨400, false, false⟩ ∧
    summarizeHandlerI none true true = ⟨400, false, false⟩ ∧
    flashcardsHandlerI none true true = ⟨400, false, false⟩ ∧
    quizHandlerI none true true = ⟨400, false, false⟩ :=
  handlers_reject_missing_text none (Or.inl rfl) true true

/-- C8 (counterexample): a completion body that parses to the valid JSON
value `null` — not structured data, expected array field missing — makes
the AI path THROW (the property read `parsed.cards` on `null` is outside
the `try`), propagating a TypeError instead of returning the empty
collection the claim promises. -/
theorem ai_null_response_throws :
    coerceFlashcards (some Json.null) = Except.error () ∧
    coerceFlashcards (some Json.null) ≠ Except.ok [] ∧
    coerceQuiz (some Json.null) = Except.error () ∧
    coerceQuiz (some Json.null) ≠ Except.ok [] :=
  ⟨rfl, fun h => Except.noConfusion h, rfl, fun h => Except.noConfusion h⟩

/-- C8 (amended): the AI-path coercion substitutes the empty collection for
a parse exception, and for an object (or array) whose `cards` / `quiz`
field is missing or not an array; but a body parsing to `null` or to a
non-object primitive throws a TypeError (property read on `null`,
strict-mode property assignment on a primitive) that propagates instead of
being recovered, because only `JSON.parse` is inside the `try`. -/
theorem ai_recovery_and_throw_boundary
    (fieldsC fieldsQ : List (Str × Json)) (b : Bool) (qn : ℚ) (st : Str)
    (la : List Json)
    (hc : ∀ l, getField (Json.obj fieldsC) cardsKey ≠ some (Json.arr l))
    (hq : ∀ l, getField (Json.obj fieldsQ) quizKey ≠ some (Json.arr l)) :
    coerceFlashcards none = Except.ok [] ∧
    coerceQuiz none = Except.ok [] ∧
    coerceFlashcards (some (Json.obj fieldsC)) = Except.ok [] ∧
    coerceQuiz (some (Json.obj fieldsQ)) = Except.ok [] ∧
    coerceFlashcards (some (Json.arr la)) = Except.ok [] ∧
    coerceQuiz (some (Json.arr la)) = Except.ok [] ∧
    coerceFlashcards (some Json.null) = Except.error () ∧
    coerceQuiz (some Json.null) = Except.error () ∧
    coerceFlashcards (some (Json.bool b)) = Except.error () ∧
    coerceQuiz (some (Json.bool b)) = Except.error () ∧
    coerceFlashcards (some (Json.num qn)) = Except.error () ∧
    coerceQuiz (some (Json.num qn)) = Except.error () ∧
    coerceFlashcards (some (Json.str st)) = Except.error () ∧
    coerceQuiz (some (Json.str st)) = Except.error () := by
  refine ⟨rfl, rfl, ?_, ?_, rfl, rfl, rfl, rfl, rfl, rfl, rfl, rfl, rfl, rfl⟩
  · cases hgf : getField (Json.obj fieldsC) cardsKey with
    | none => simp [coerceFlashcards, hgf]
    | some v =>
      cases v with
      | null => simp [coerceFlashcards, hgf]
      | bool b2 => simp [coerceFlashcards, hgf]
      | num q2 => simp [coerceFlashcards, hgf]
      | str s2 => simp [coerceFlashcards, hgf]
      | arr l => exact (hc l hgf).elim
      | obj fs => simp [coerceFlashcards, hgf]
  · cases hgf : getField (Json.obj fieldsQ) quizKey with
    | none => simp [coerceQuiz, hgf]
    | some v =>
      cases v with
      | null => simp [coerceQuiz, hgf]
      | bool b2 => simp [coerceQuiz, hgf]
      | num q2 => simp [coerceQuiz, hgf]
      | str s2 => simp [coerceQuiz, hgf]
      | arr l => exact (hq l hgf).elim
      | obj fs => simp [coerceQuiz, hgf]

/-- C8 (witness): empty objects carry no `cards` / `quiz` field, so the
recovery cases apply; the throwing cases are instantiated at `true`, `0`,
the empty string and the empty array. -/
theorem ai_recovery_and_throw_boundary_witness :
    coerceFlashcards none = Except.ok [] ∧
    coerceQuiz none = Except.ok [] ∧
    coerceFlashcards (some (Json.obj [])) = Except.ok [] ∧
    coerceQuiz (some (Json.obj [])) = Except.ok [] ∧
    coerceFlashcards (some (Json.arr [])) = Except.ok [] ∧
    coerceQuiz (some (Json.arr [])) = Except.ok [] ∧
    coerceFlashcards (some Json.null) = Except.error () ∧
    coerceQuiz (some Json.null) = Except.error () ∧
    coerceFlashcards (some (Json.bool true)) = Except.error () ∧
    coerceQuiz (some (Json.bool true)) = Except.error () ∧
    coerceFlashcards (some (Json.num 0)) = Except.error () ∧
    coerceQuiz (some (Json.num 0)) = Except.error () ∧
    coerceFlashcards (some (Json.str [])) = Except.error () ∧
    coerceQuiz (some (Json.str [])) = Except.error () :=
  ai_recovery_and_throw_boundary [] [] true 0 [] []
    (fun _ h => Option.noConfusion h)
    (fun _ h => Option.noConfusion h)

/-- C9: for every token list of at least 6 words, the mask index
`max(3, min(len - 2, floor(len / 2)))` lies in `[3, len - 2]`, so the
masked token exists and masking never touches the first three tokens or the
final token. -/
theorem quiz_mask_index_safe (words : List Str) (h : 6 ≤ words.length) :
    3 ≤ maskIdx words.length ∧
    maskIdx words.length ≤ words.length - 2 ∧
    maskIdx words.length < words.length ∧
    (words.set (maskIdx words.length) blank).get? 0 = words.get? 0 ∧
    (words.set (maskIdx words.length) blank).get? 1 = words.get? 1 ∧
    (words.set (maskIdx words.length) blank).get? 2 = words.get? 2 ∧
    (words.set (maskIdx words.length) blank).get? (words.length - 1)
      = words.get? (words.length - 1) := by
  obtain ⟨h3, hle⟩ := maskIdx_bounds h
  refine ⟨h3, hle, by omega, ?_, ?_, ?_, ?_⟩ <;>
    (apply List.get?_set_ne; omega)

/-- C9 (witness): a concrete seven-token sentence; the mask index is 3. -/
theorem quiz_mask_index_safe_witness :
    3 ≤ maskIdx wordsC9.length ∧
    maskIdx wordsC9.length ≤ wordsC9.length - 2 ∧
    maskIdx wordsC9.length < wordsC9.length ∧
    (wordsC9.set (maskIdx wordsC9.length) blank).get? 0 = wordsC9.get? 0 ∧
    (wordsC9.set (maskIdx wordsC9.length) blank).get? 1 = wordsC9.get? 1 ∧
    (wordsC9.set (maskIdx wordsC9.length) blank).get? 2 = wordsC9.get? 2 ∧
    (wordsC9.set (maskIdx wordsC9.length) blank).get? (wordsC9.length - 1)
      = wordsC9.get? (wordsC9.length - 1) :=
  quiz_mask_index_safe wordsC9 (by decide)

/-- C10: the structured (non-backfill) flashcards of the routes module are a
function of the first 200 non-empty trimmed lines alone: two inputs that
agree on those lines yield identical structured cards for every count. -/
theorem flashcards_structured_first200 (t1 t2 : Str) (count : Nat)
    (h : (linesR t1).take 200 = (linesR t2).take 200) :
    structuredCardsR t1 count = structuredCardsR t2 count := by
  unfold structuredCardsR
  rw [h]

/-- C10 (witness): the two texts differ in whitespace layout but share their
non-empty trimmed lines. -/
theorem flashcards_structured_first200_witness :
    structuredCardsR t10a 3 = structuredCardsR t10b 3 :=
  flashcards_structured_first200 t10a t10b 3 (by decide)

/-- C3 (counterexample): the routes-module scores do not award the keyword
bonus per OCCURRENCE: on a sentence containing "important" twice the code
adds 0.5 once for that keyword, so the scored list differs from the
per-occurrence formula (the claimed sum at the first sentence is 2.0, the
code computes 1.5). -/
theorem summarizer_score_not_per_occurrence :
    1 < (sentencesR txtC3).length ∧ scoredR txtC3 ≠ perOccScoredR txtC3 := by
  have hs : sentencesR txtC3 = [s1C3, s2C3] := by decide
  refine ⟨by rw [hs]; decide, ?_⟩
  have h1 : jsIncludes ("important".toList) (jsLower s1C3) = true := by decide
  have h2 : jsIncludes ("key".toList) (jsLower s1C3) = true := by decide
  have h3 : jsIncludes ("main".toList) (jsLower s1C3) = false := by decide
  have h4 : jsIncludes ("summary".toList) (jsLower s1C3) = false := by decide
  have h5 : jsIncludes ("therefore".toList) (jsLower s1C3) = false := by decide
  have h6 : jsIncludes ("because".toList) (jsLower s1C3) = true := by decide
  have hkw : kwFold s1C3 = 3/2 := by
    simp only [kwFold, keywords, List.foldl_cons, List.foldl_nil,
      h1, h2, h3, h4, h5, h6, if_true, if_false]
    norm_num
  have hsum : ((keywords.map (fun kw => countOcc kw (jsLower s1C3))).sum) = 4 := by
    decide
  intro h
  have e1 : scoredR txtC3
      = [(s1C3, jsScoreR s1C3 0 2), (s2C3, jsScoreR s2C3 1 2)] := by
    simp only [scoredR]
    rw [hs]
    rfl
  have e2 : perOccScoredR txtC3
      = [(s1C3, qmin ((s1C3.length : ℚ) / 200) 1
            + (1/2) * (((keywords.map
                (fun kw => countOcc kw (jsLower s1C3))).sum : ℚ))
            + (1 - ((0 : ℕ) : ℚ) / ((2 : ℕ) : ℚ))),
          (s2C3, qmin ((s2C3.length : ℚ) / 200) 1
            + (1/2) * (((keywords.map
                (fun kw => countOcc kw (jsLower s2C3))).sum : ℚ))
            + (1 - ((1 : ℕ) : ℚ) / ((2 : ℕ) : ℚ)))] := by
    simp only [perOccScoredR]
    rw [hs]
    rfl
  rw [e1, e2] at h
  simp only [List.cons.injEq, Prod.mk.injEq, eq_self_iff_true, true_and,
    and_true] at h
  have he := h.1
  rw [hsum] at he
  simp only [jsScoreR, hkw] at he
  push_cast at he
  linarith

/-- C3 (amended): each sentence score of the routes-module summarizer is the
sum of the capped length component `min(length/200, 1)`, a keyword
component of 0.5 for each keyword of the hand-picked set occurring at least
once as a case-insensitive substring (NOT per occurrence), and the
position component `1 - index/total`. -/
theorem summarizer_score_decomposition (text : Str) :
    scoredR text
      = (sentencesR text).enum.map (fun p =>
          (p.2, qmin ((p.2.length : ℚ) / 200) 1
            + (1/2) * ((keywords.filter
                (fun kw => jsIncludes kw (jsLower p.2))).length : ℚ)
            + (1 - (p.1 : ℚ) / ((sentencesR text).length : ℚ)))) := by
  simp only [scoredR]
  apply List.map_congr_left
  intro p _
  rw [jsScoreR, kwFold_eq]

/-- C4 (counterexample): the routes-module summarizer has no length-20 noise
filter (it keeps every non-empty sentence): on "Hi. Yo." the claimed
eligible set (length > 20 survivors) is empty and within the budget, yet
the output is not the join of that set. -/
theorem routes_summarizer_keeps_short_sentences :
    ((sentencesR txtC4).filter (fun s => 20 < s.length)).length ≤ 5 ∧
    textSummaryR txtC4 5
      ≠ joinSp ((sentencesR txtC4).filter (fun s => 20 < s.length)) := by
  constructor
  · decide
  · decide

/-- C4 (amended): both heuristic summarizers select at most N sentences; and
whenever the sentences surviving the variant's own noise filter (non-empty
for `routes/api.js`, length > 20 for `index.js`) number at most N, the
output is exactly that filtered list joined in original order. -/
theorem summarizer_bound_and_boundary (text : Str) (n : Nat) :
    (pickedR text n).length ≤ n ∧ (pickedI text n).length ≤ n ∧
    ((sentencesR text).length ≤ n →
      textSummaryR text n = joinSp (sentencesR text)) ∧
    ((sentencesI text).length ≤ n →
      textSummaryI text n = joinSp (sentencesI text)) := by
  refine ⟨?_, ?_, ?_, ?_⟩
  · by_cases h : (sentencesR text).length ≤ n
    · rw [show pickedR text n = sentencesR text by simp [pickedR, h]]
      exact h
    · rw [show pickedR text n
          = ((sortDesc (scoredR text)).take n).map Prod.fst by simp [pickedR, h]]
      rw [List.length_map]
      exact List.length_take_le _ _
  · by_cases h : (sentencesI text).length ≤ n
    · rw [show pickedI text n = sentencesI text by simp [pickedI, h]]
      exact h
    · rw [show pickedI text n
          = ((sortDesc (scoredI text)).take n).map Prod.fst by simp [pickedI, h]]
      rw [List.length_map]
      exact List.length_take_le _ _
  · intro h
    by_cases ht : text = []
    · subst ht
      rw [show sentencesR ([] : Str) = [] by decide]
      rfl
    · rw [show textSummaryR text n = joinSp (pickedR text n) by
        simp [textSummaryR, ht]]
      rw [show pickedR text n = sentencesR text by simp [pickedR, h]]
  · intro h
    by_cases ht : text = []
    · subst ht
      rw [show sentencesI ([] : Str) = [] by decide]
      rfl
    · rw [show textSummaryI text n = joinSp (pickedI text n) by
        simp [textSummaryI, ht]]
      rw [show pickedI text n = sentencesI text by simp [pickedI, h]]

/-- C4 (witness): a two-sentence text within the budget of 5 for both
variants. -/
theorem summarizer_bound_and_boundary_witness :
    (pickedR txtC4w 5).length ≤ 5 ∧ (pickedI txtC4w 5).length ≤ 5 ∧
    textSummaryR txtC4w 5 = joinSp (sentencesR txtC4w) ∧
    textSummaryI txtC4w 5 = joinSp (sentencesI txtC4w) :=
  ⟨(summarizer_bound_and_boundary txtC4w 5).1,
   (summarizer_bound_and_boundary txtC4w 5).2.1,
   (summarizer_bound_and_boundary txtC4w 5).2.2.1 (by decide),
   (summarizer_bound_and_boundary txtC4w 5).2.2.2 (by decide)⟩

/-- C5 (counterexample): the `index.js` flashcard generator can emit a card
with an EMPTY answer: a 44-character segment ending in a colon splits into
a question subject and a remainder that trims to the empty string.  (The
backfill oracle is irrelevant: the single structured card fills the
requested count of 1.) -/
theorem flashcardsI_empty_answer :
    flashCexText ≠ [] ∧
    ¬ (∀ c ∈ generateFlashcardsI (fun _ => 0) flashCexText 1, c.answer ≠ []) := by
  constructor
  · decide
  · decide

/-- C5 (amended): for non-empty input and any requested count, the
routes-module flashcard generator is a total function returning at most
`count` cards, and every returned card (structured or backfill) has a
non-empty answer.  The index.js variant keeps the count bound and totality
but not the non-empty-answer guarantee. -/
theorem flashcardsR_guarantees (text : Str) (count : Nat) (h : text ≠ []) :
    (generateFlashcardsR text count).length ≤ count ∧
    ∀ c ∈ generateFlashcardsR text count, c.answer ≠ [] := by
  constructor
  · simp only [generateFlashcardsR]
    exact List.length_take_le _ _
  · intro c hc
    simp only [generateFlashcardsR, if_neg h] at hc
    have hc' := List.mem_of_mem_take hc
    rcases List.mem_append.mp hc' with hstruct | hback
    · exact structLoopR_answer _ _ _ hstruct
    · simp only [backfillCardsR] at hback
      rcases List.mem_map.mp hback with ⟨j, _, rfl⟩
      simp [ellip]

/-- C5 (witness): the single-character text "x" yields 8 backfill cards,
all with answer "x…". -/
theorem flashcardsR_guarantees_witness :
    (("x".toList : Str) ≠ []) ∧
    (generateFlashcardsR ("x".toList) 8).length ≤ 8 ∧
    ((generateFlashcardsR ("x".toList) 8).headD ⟨[], []⟩).answer ≠ [] :=
  ⟨by decide,
   (flashcardsR_guarantees ("x".toList) 8 (by decide)).1,
   (flashcardsR_guarantees ("x".toList) 8 (by decide)).2 _ (by decide)⟩

/-- C1 (counterexample): a quiz question can contain the blank placeholder
substring more than once: on a sentence whose second token is "____x" the
produced question holds "____" both inside that token and at the masked
position, so "exactly one blank placeholder" fails.  (The question string
is built before the options are shuffled, so the identity shuffle is
representative.) -/
theorem quiz_blank_not_unique :
    ¬ (∀ q ∈ generateQuizR (fun l => l) quizCexText 5,
        countOcc blank q.question = 1) := by
  decide

/-- C1 (amended): every item of the routes-module quiz generator, for any
multiset-preserving shuffle, has its answer exactly once among its exactly
4 options, and its question contains the blank placeholder '____' at least
once; exactly-once fails in general (see the counterexample, where an input
token itself contains the placeholder substring). -/
theorem quiz_item_answer_once_options4
    (shuffle : List Str → List Str) (hs : ∀ l, (shuffle l).Perm l)
    (text : Str) (count : Nat) (q : QuizItem)
    (hq : q ∈ generateQuizR shuffle text count) :
    countEq q.answer q.options = 1 ∧ q.options.length = 4 ∧
    blank <:+: q.question := by
  obtain ⟨s, hw, _, rfl⟩ := quizLoop_shape shuffle _ _ _ hq
  have hperm := hs (optionPool (ansOf s))
  obtain ⟨hcount, hlen⟩ := optionPool_props (ansOf s)
  refine ⟨?_, ?_, ?_⟩
  · show countEq (ansOf s) (shuffle (optionPool (ansOf s))) = 1
    unfold countEq
    rw [hperm.countP_eq]
    exact hcount
  · show (shuffle (optionPool (ansOf s))).length = 4
    rw [hperm.length_eq]
    exact hlen
  · show blank <:+: joinSp ((wordsOf s).set (maskIdx (wordsOf s).length) blank)
    apply infix_joinSp
    apply List.mem_set
    have hb := maskIdx_bounds hw
    omega

/-- C1 (witness): the one item generated from a clean 8-token sentence,
with the identity permutation as shuffle. -/
theorem quiz_item_answer_once_options4_witness :
    countEq quizWitnessItem.answer quizWitnessItem.options = 1 ∧
    quizWitnessItem.options.length = 4 ∧
    blank <:+: quizWitnessItem.question :=
  quiz_item_answer_once_options4 (fun l => l) (fun l => List.Perm.refl l)
    quizWitnessText 3 quizWitnessItem (by decide)
